import Mathlib

/-!
Verification of the reactive view-state model of the Pro Sales Dashboard
(files `app.py` and `app_no_auth.py`).

The embedding follows the source:
* a canonical dataset is a list of transaction rows (`Dataset`); the canonical
  table has no Revenue column (the `Row` structure has no revenue field);
* the data-processing section of `main` (`df_filtered = ...copy()`, the
  region / product / status filters, and the Revenue column assignment) is
  `dataProcessing` (app.py) and `dataProcessingNoAuth` (app_no_auth.py);
* the KPI block is `totalRevenue`, `totalUnits`, `avgRating`,
  `completionRate`; pandas returns NaN for the mean of an empty column, which
  is modelled by `Option` with `none` standing for NaN;
* `groupby("Product")["Revenue"].sum().sort_values(ascending=False).head(n)`
  is `topProductsByRevenue`: pandas `groupby` (default `sort=True`) lists the
  group keys in ascending name order, and `sort_values` is modelled as a
  stable descending sort on those sums;
* the two data-editor blocks (`if not edited_df.equals(...): ... st.rerun()`)
  are `reconcile` and the editor section of `mainPass`;
* the authentication dispatch at the bottom of app.py
  (`if st.session_state["authentication_status"]: main() elif ...`) is
  `topLevel` over the verdict type `AuthStatus` (truthy / False / None).

Numeric columns: `Units Sold` and `Rating` are integers in the source and
become `Nat`; `Unit Price` and the derived `Revenue` are modelled as `ℚ`.
-/

namespace SimpleStreamlit

/-- One sales record, as generated in the session-state init block of
`main` (columns Date, Product, Region, Units Sold, Unit Price, Status,
Rating).  There is no Revenue field: the canonical table never stores
revenue. -/
structure Row where
  date : Nat
  product : String
  region : String
  unitsSold : Nat
  unitPrice : ℚ
  status : String
  rating : Nat
deriving DecidableEq, Repr

/-- The canonical dataset `st.session_state.sales_data`: an ordered list of
rows, duplicates allowed. -/
abbrev Dataset := List Row

/-- A row of the filtered view `df_filtered` after the Revenue column has
been assigned: the underlying canonical row together with the derived
Revenue cell. -/
structure ViewRow where
  row : Row
  revenue : ℚ
deriving DecidableEq, Repr

abbrev FilteredView := List ViewRow

/-- The Revenue assignment `df_filtered["Revenue"] = df_filtered["Units Sold"]
* df_filtered["Unit Price"]`, per row. -/
def addRevenue (r : Row) : ViewRow :=
  { row := r, revenue := (r.unitsSold : ℚ) * r.unitPrice }

/-- The options of the Order Status radio widget:
`st.radio("Order Status", ["All", "Completed", "Pending"])`. -/
def statusRadioOptions : List String := ["All", "Completed", "Pending"]

/-- The DATA PROCESSING section of `main` in app.py:
`df_filtered = st.session_state.sales_data.copy()`, then
`if selected_regions: df_filtered = df_filtered[...isin(selected_regions)]`
(the region filter is applied only when the selection list is truthy, i.e.
non-empty), then the status filter when the radio is not "All", then the
Revenue column assignment. -/
def dataProcessing (salesData : Dataset) (selectedRegions : List String)
    (statusFilter : String) : FilteredView :=
  let df0 := salesData
  let df1 := if selectedRegions = [] then df0
    else df0.filter (fun r => decide (r.region ∈ selectedRegions))
  let df2 := if statusFilter = "All" then df1
    else df1.filter (fun r => decide (r.status = statusFilter))
  df2.map addRevenue

/-- The DATA PROCESSING section of `main` in app_no_auth.py: identical to
app.py except that a product filter (same truthiness guard) is applied
before the region filter. -/
def dataProcessingNoAuth (salesData : Dataset) (selectedProducts : List String)
    (selectedRegions : List String) (statusFilter : String) : FilteredView :=
  let df0 := salesData
  let df1 := if selectedProducts = [] then df0
    else df0.filter (fun r => decide (r.product ∈ selectedProducts))
  let df2 := if selectedRegions = [] then df1
    else df1.filter (fun r => decide (r.region ∈ selectedRegions))
  let df3 := if statusFilter = "All" then df2
    else df2.filter (fun r => decide (r.status = statusFilter))
  df3.map addRevenue

/-- KPI `total_revenue = df_filtered["Revenue"].sum()`. -/
def totalRevenue (v : FilteredView) : ℚ := (v.map (fun x => x.revenue)).sum

/-- KPI `total_units = df_filtered["Units Sold"].sum()`. -/
def totalUnits (v : FilteredView) : Nat := (v.map (fun x => x.row.unitsSold)).sum

/-- KPI `avg_rating = df_filtered["Rating"].mean()`.  pandas `mean()` of an
empty column is NaN; `none` models NaN, `some q` models the finite mean. -/
def avgRating (v : FilteredView) : Option ℚ :=
  if v.length = 0 then none
  else some ((v.map (fun x => (x.row.rating : ℚ))).sum / (v.length : ℚ))

/-- KPI `completion_rate = (len(df_filtered[df_filtered['Status'] ==
'Completed']) / len(df_filtered)) * 100 if len(df_filtered) > 0 else 0`. -/
def completionRate (v : FilteredView) : ℚ :=
  if 0 < v.length then
    (((v.filter (fun x => decide (x.row.status = "Completed"))).length : ℚ)
      / (v.length : ℚ)) * 100
  else 0

/-- The distinct products of the view, in first-encountered order
(the groups formed by `df_filtered.groupby("Product")`). -/
def productKeys (v : FilteredView) : List String :=
  (v.map (fun x => x.row.product)).dedup

/-- Ascending insertion of a key, used to model the ascending key order
that pandas `groupby` (default `sort=True`) imposes on the group index. -/
def insertKeyAsc (s : String) : List String → List String
  | [] => [s]
  | t :: rest => if s < t then s :: t :: rest else t :: insertKeyAsc s rest

/-- Ascending sort of the group keys (pandas `groupby` with `sort=True`). -/
def sortKeysAsc : List String → List String
  | [] => []
  | s :: rest => insertKeyAsc s (sortKeysAsc rest)

/-- Total Revenue of one product group:
`df_filtered.groupby("Product")["Revenue"].sum()` at one key. -/
def productRevenueSum (v : FilteredView) (p : String) : ℚ :=
  ((v.filter (fun x => decide (x.row.product = p))).map (fun x => x.revenue)).sum

/-- The series `df_filtered.groupby("Product")["Revenue"].sum()`: one
(product, revenue total) pair per distinct product, keys in ascending name
order (pandas `groupby` default `sort=True`). -/
def groupbyProductRevenueSum (v : FilteredView) : List (String × ℚ) :=
  (sortKeysAsc (productKeys v)).map (fun p => (p, productRevenueSum v p))

/-- Descending insertion by revenue total; on a tie the inserted (earlier)
entry stays in front, modelling a stable `sort_values(ascending=False)`. -/
def insertByRevenueDesc (p : String × ℚ) : List (String × ℚ) → List (String × ℚ)
  | [] => [p]
  | q :: rest => if p.2 < q.2 then q :: insertByRevenueDesc p rest else p :: q :: rest

/-- Stable descending sort by revenue total
(`.sort_values(ascending=False)` on the groupby series). -/
def sortByRevenueDesc : List (String × ℚ) → List (String × ℚ)
  | [] => []
  | p :: rest => insertByRevenueDesc p (sortByRevenueDesc rest)

/-- `df_filtered.groupby("Product")["Revenue"].sum().sort_values(
ascending=False).head(n)`; the Deep Dive tab renders it with n = 5. -/
def topProductsByRevenue (v : FilteredView) (n : Nat) : List (String × ℚ) :=
  (sortByRevenueDesc (groupbyProductRevenueSum v)).take n

/-- The edit-reconciliation step shared by both editor blocks:
`if not edited_df.equals(st.session_state.sales_data):
st.session_state.sales_data = edited_df; st.rerun()`.  Returns the changed
flag and the dataset the session keeps. -/
def reconcile (canonical editedSnapshot : Dataset) : Bool × Dataset :=
  if editedSnapshot = canonical then (false, canonical) else (true, editedSnapshot)

/-- The widget values one pass of `main` in app.py reads: the two sidebar
filters, the raw-data toggle, and the snapshots the two data-editor
surfaces hand back (each editor is seeded with the canonical dataset, so an
untouched editor returns a snapshot equal to it). -/
structure Inputs where
  selectedRegions : List String
  statusFilter : String
  showRawData : Bool
  editedDf : Dataset
  editedDfNew : Dataset
deriving DecidableEq, Repr

/-- What one pass of `main` leaves behind: the canonical dataset at the end
of the pass, the filtered view it rendered, and whether `st.rerun()` was
triggered by an editor. -/
structure PassResult where
  finalData : Dataset
  view : FilteredView
  rerun : Bool
deriving DecidableEq, Repr

/-- One pass of `main` in app.py over the reactive core: session-state
init (`if "sales_data" not in st.session_state`, the pseudo-random seed
table being the `seed` argument), the DATA PROCESSING section, and the two
data-editor blocks, which only render when the raw-data toggle is on and
which replace the canonical dataset and rerun when their snapshot differs
(`st.rerun()` aborts the pass, so the second editor is not consulted once
the first has fired). -/
def mainPass (stored : Option Dataset) (seed : Dataset) (i : Inputs) : PassResult :=
  let salesData := stored.getD seed
  let view := dataProcessing salesData i.selectedRegions i.statusFilter
  if i.showRawData then
    let r1 := reconcile salesData i.editedDf
    if r1.1 then { finalData := r1.2, view := view, rerun := true }
    else
      let r2 := reconcile salesData i.editedDfNew
      if r2.1 then { finalData := r2.2, view := view, rerun := true }
      else { finalData := salesData, view := view, rerun := false }
  else { finalData := salesData, view := view, rerun := false }

/-- The authentication verdict `st.session_state["authentication_status"]`:
truthy (granted), `False` (denied), `None` (pending). -/
inductive AuthStatus where
  | granted
  | denied
  | pending
deriving DecidableEq, Repr

/-- The dispatch at the bottom of app.py:
`if st.session_state["authentication_status"]: main()
elif ... is False: st.error('Username/password is incorrect')
elif ... is None: st.warning('Please enter your username and password')`.
The first component is the pass result when the core ran (`none` when it
did not), the second the fixed message shown instead. -/
def topLevel (auth : AuthStatus) (stored : Option Dataset) (seed : Dataset)
    (i : Inputs) : Option PassResult × Option String :=
  match auth with
  | .granted => (some (mainPass stored seed i), none)
  | .denied => (none, some "Username/password is incorrect")
  | .pending => (none, some "Please enter your username and password")

/-! ### Helper lemmas about the Filter Engine -/

theorem mem_map_addRevenue {l : List Row} {vr : ViewRow} :
    vr ∈ l.map addRevenue ↔
      vr.row ∈ l ∧ vr.revenue = (vr.row.unitsSold : ℚ) * vr.row.unitPrice := by
  constructor
  · intro h
    rcases List.mem_map.1 h with ⟨r, hr, he⟩
    subst he
    exact ⟨hr, rfl⟩
  · rintro ⟨hr, he⟩
    refine List.mem_map.2 ⟨vr.row, hr, ?_⟩
    cases vr with
    | mk row revenue =>
      simp only [addRevenue]
      simp_all

/-- Membership characterization of the app.py Filter Engine: a view row is
in the filtered view exactly when its underlying row is a canonical row
that passes the region filter (skipped when the selection is empty) and the
status filter (skipped on "All"), and its Revenue cell is UnitsSold times
UnitPrice. -/
theorem mem_dataProcessing {d : Dataset} {rs : List String} {sf : String}
    {vr : ViewRow} :
    vr ∈ dataProcessing d rs sf ↔
      vr.row ∈ d ∧ (rs ≠ [] → vr.row.region ∈ rs) ∧
        (sf ≠ "All" → vr.row.status = sf) ∧
        vr.revenue = (vr.row.unitsSold : ℚ) * vr.row.unitPrice := by
  unfold dataProcessing
  rw [mem_map_addRevenue]
  by_cases hrs : rs = [] <;> by_cases hsf : sf = "All"
  all_goals simp [hrs, hsf, List.mem_filter, and_assoc]
  all_goals tauto

/-- Membership characterization of the app_no_auth.py Filter Engine. -/
theorem mem_dataProcessingNoAuth {d : Dataset} {ps rs : List String}
    {sf : String} {vr : ViewRow} :
    vr ∈ dataProcessingNoAuth d ps rs sf ↔
      vr.row ∈ d ∧ (ps ≠ [] → vr.row.product ∈ ps) ∧
        (rs ≠ [] → vr.row.region ∈ rs) ∧
        (sf ≠ "All" → vr.row.status = sf) ∧
        vr.revenue = (vr.row.unitsSold : ℚ) * vr.row.unitPrice := by
  unfold dataProcessingNoAuth
  rw [mem_map_addRevenue]
  by_cases hps : ps = [] <;> by_cases hrs : rs = [] <;> by_cases hsf : sf = "All"
  all_goals simp [hps, hrs, hsf, List.mem_filter, and_assoc]
  all_goals tauto

/-- The underlying rows of the filtered view form a sublist of the
canonical dataset: the Filter Engine only drops rows and decorates the
survivors with a Revenue cell. -/
theorem dataProcessing_rows_sublist (d : Dataset) (rs : List String)
    (sf : String) :
    ((dataProcessing d rs sf).map (fun x => x.row)).Sublist d := by
  unfold dataProcessing
  have hmap : ∀ l : List Row, (l.map addRevenue).map (fun x => x.row) = l := by
    intro l
    simp [addRevenue, Function.comp_def]
  rw [hmap]
  by_cases hrs : rs = [] <;> by_cases hsf : sf = "All" <;> simp [hrs, hsf]

/-! ### Helper lemmas about the grouping and sorting in the Deep Dive tab -/

theorem insertKeyAsc_perm (s : String) (l : List String) :
    List.Perm (insertKeyAsc s l) (s :: l) := by
  induction l with
  | nil => exact List.Perm.refl _
  | cons t rest ih =>
    unfold insertKeyAsc
    by_cases h : s < t
    · simp [h]
    · simp only [h, if_false]
      exact (ih.cons t).trans (List.Perm.swap s t rest)

theorem sortKeysAsc_perm (l : List String) : List.Perm (sortKeysAsc l) l := by
  induction l with
  | nil => exact List.Perm.refl _
  | cons s rest ih =>
    unfold sortKeysAsc
    exact (insertKeyAsc_perm s (sortKeysAsc rest)).trans (ih.cons s)

theorem insertKeyAsc_pairwise_lt {s : String} {l : List String}
    (hl : l.Pairwise (· < ·)) (hs : s ∉ l) :
    (insertKeyAsc s l).Pairwise (· < ·) := by
  induction l with
  | nil => simp [insertKeyAsc]
  | cons t rest ih =>
    rcases List.pairwise_cons.1 hl with ⟨ht, hrest⟩
    have hsne : s ≠ t := fun h => hs (h ▸ List.mem_cons_self t rest)
    have hsrest : s ∉ rest := fun h => hs (List.mem_cons_of_mem t h)
    unfold insertKeyAsc
    by_cases h : s < t
    · simp only [h, if_true]
      refine List.pairwise_cons.2 ⟨?_, hl⟩
      intro b hb
      rcases List.mem_cons.1 hb with hb | hb
      · exact hb ▸ h
      · exact h.trans (ht b hb)
    · simp only [h, if_false]
      have hts : t < s := lt_of_le_of_ne (le_of_not_lt h) hsne.symm
      refine List.pairwise_cons.2 ⟨?_, ih hrest hsrest⟩
      intro b hb
      rcases List.mem_cons.1 ((insertKeyAsc_perm s rest).mem_iff.1 hb) with rfl | hb2
      · exact hts
      · exact ht b hb2

theorem sortKeysAsc_pairwise_lt {l : List String} (hl : l.Nodup) :
    (sortKeysAsc l).Pairwise (· < ·) := by
  induction l with
  | nil => simp [sortKeysAsc]
  | cons s rest ih =>
    rcases List.nodup_cons.1 hl with ⟨hs, hrest⟩
    unfold sortKeysAsc
    exact insertKeyAsc_pairwise_lt (ih hrest)
      (fun h => hs ((sortKeysAsc_perm rest).mem_iff.1 h))

/-- The order the Deep Dive table presents: strictly larger revenue first,
and on equal revenue the alphabetically smaller product name first
(inherited from the ascending key order of the groupby index through the
stability of the value sort). -/
def revAbove (p q : String × ℚ) : Prop :=
  q.2 < p.2 ∨ (p.2 = q.2 ∧ p.1 < q.1)

theorem insertByRevenueDesc_perm (p : String × ℚ) (l : List (String × ℚ)) :
    List.Perm (insertByRevenueDesc p l) (p :: l) := by
  induction l with
  | nil => exact List.Perm.refl _
  | cons q rest ih =>
    unfold insertByRevenueDesc
    by_cases h : p.2 < q.2
    · simp only [h, if_true]
      exact (ih.cons q).trans (List.Perm.swap p q rest)
    · simp [h]

theorem sortByRevenueDesc_perm (l : List (String × ℚ)) :
    List.Perm (sortByRevenueDesc l) l := by
  induction l with
  | nil => exact List.Perm.refl _
  | cons p rest ih =>
    unfold sortByRevenueDesc
    exact (insertByRevenueDesc_perm p (sortByRevenueDesc rest)).trans (ih.cons p)

theorem insertByRevenueDesc_pairwise {p : String × ℚ} {l : List (String × ℚ)}
    (hl : l.Pairwise revAbove) (hp : ∀ q ∈ l, p.1 < q.1) :
    (insertByRevenueDesc p l).Pairwise revAbove := by
  induction l with
  | nil => simp [insertByRevenueDesc]
  | cons q rest ih =>
    rcases List.pairwise_cons.1 hl with ⟨hq, hrest⟩
    have hpq : p.1 < q.1 := hp q (List.mem_cons_self q rest)
    have hprest : ∀ r ∈ rest, p.1 < r.1 :=
      fun r hr => hp r (List.mem_cons_of_mem q hr)
    unfold insertByRevenueDesc
    by_cases h : p.2 < q.2
    · simp only [h, if_true]
      refine List.pairwise_cons.2 ⟨?_, ih hrest hprest⟩
      intro b hb
      rcases List.mem_cons.1 ((insertByRevenueDesc_perm p rest).mem_iff.1 hb) with rfl | hb2
      · exact Or.inl h
      · exact hq b hb2
    · simp only [h, if_false]
      have hqp : q.2 ≤ p.2 := le_of_not_lt h
      refine List.pairwise_cons.2 ⟨?_, List.pairwise_cons.2 ⟨hq, hrest⟩⟩
      intro b hb
      rcases List.mem_cons.1 hb with hb | hb
      · subst hb
        rcases lt_or_eq_of_le hqp with hlt | heq
        · exact Or.inl hlt
        · exact Or.inr ⟨heq.symm, hpq⟩
      · rcases hq b hb with hlt | ⟨heq, _⟩
        · exact Or.inl (hlt.trans_le hqp)
        · rcases lt_or_eq_of_le hqp with hqlt | hqeq
          · exact Or.inl (heq ▸ hqlt)
          · exact Or.inr ⟨by rw [← hqeq, heq], hprest b hb⟩

theorem sortByRevenueDesc_pairwise {l : List (String × ℚ)}
    (hl : l.Pairwise (fun p q => p.1 < q.1)) :
    (sortByRevenueDesc l).Pairwise revAbove := by
  induction l with
  | nil => simp [sortByRevenueDesc]
  | cons p rest ih =>
    rcases List.pairwise_cons.1 hl with ⟨hp, hrest⟩
    unfold sortByRevenueDesc
    exact insertByRevenueDesc_pairwise (ih hrest)
      (fun q hq => hp q ((sortByRevenueDesc_perm rest).mem_iff.1 hq))

theorem groupby_pairwise_fst_lt (v : FilteredView) :
    (groupbyProductRevenueSum v).Pairwise (fun p q => p.1 < q.1) := by
  unfold groupbyProductRevenueSum
  exact List.Pairwise.map _ (fun a b h => h)
    (sortKeysAsc_pairwise_lt (List.nodup_dedup _))

/-- In a `revAbove`-sorted list, an element of the first `n` positions has
fewer than `n` elements of the whole list strictly above its revenue. -/
theorem filter_gt_length_lt_of_mem_take {s : List (String × ℚ)}
    {pr : String × ℚ} {n : Nat} (hs : s.Pairwise revAbove)
    (hmem : pr ∈ s.take n) :
    (s.filter (fun q => decide (pr.2 < q.2))).length < n := by
  induction s generalizing n with
  | nil => simp at hmem
  | cons a rest ih =>
    cases n with
    | zero => simp at hmem
    | succ m =>
      rcases List.pairwise_cons.1 hs with ⟨ha, hrest⟩
      rw [List.take_succ_cons] at hmem
      rcases List.mem_cons.1 hmem with hpr | hpr
      · subst hpr
        have hnone : rest.filter (fun q => decide (pr.2 < q.2)) = [] := by
          rw [List.filter_eq_nil_iff]
          intro q hq
          rcases ha q hq with hlt | ⟨heq, _⟩
          · simp [not_lt_of_gt hlt]
          · simp [heq]
        simp [List.filter_cons, hnone]
      · have hrec := ih hrest hpr
        rw [List.filter_cons]
        split
        · rw [List.length_cons]
          omega
        · omega

/-! ### Concrete sample data for counterexamples and witnesses -/

/-- A sample transaction row (region North, status Completed). -/
def exRowNorth : Row :=
  { date := 0, product := "Laptop", region := "North", unitsSold := 2,
    unitPrice := 10, status := "Completed", rating := 5 }

/-- Sample view rows with a revenue tie between products "B" and "A"
("B" encountered first) and a strictly smaller product "C". -/
def exRowB : Row :=
  { date := 0, product := "B", region := "North", unitsSold := 1,
    unitPrice := 300, status := "Completed", rating := 5 }

def exRowA : Row :=
  { date := 1, product := "A", region := "South", unitsSold := 1,
    unitPrice := 300, status := "Pending", rating := 4 }

def exRowC : Row :=
  { date := 2, product := "C", region := "East", unitsSold := 1,
    unitPrice := 100, status := "Completed", rating := 3 }

/-- A filtered view whose row order is B, A, C with revenues 300, 300, 100. -/
def exViewTie : FilteredView :=
  [{ row := exRowB, revenue := 300 }, { row := exRowA, revenue := 300 },
    { row := exRowC, revenue := 100 }]

/-- A one-row filtered view. -/
def exView1 : FilteredView := [{ row := exRowNorth, revenue := 20 }]

/-! ### Claims -/

/-- C1 counterexample: with the canonical dataset `[exRowNorth]`, an empty
region selection and status filter "All", the filtered view is NOT empty —
the guard `if selected_regions:` skips the region filter entirely when the
selection is empty, so the claimed "empty filtered view" is false. -/
theorem C1_counterexample :
    dataProcessing [exRowNorth] [] "All" ≠ [] := by
  decide

/-- C1 (amended): an empty region (or product) selection causes the Filter
Engine to skip that membership filter, which behaves exactly like a
selection containing every region (or product) occurring in the dataset —
the unfiltered behavior, not an empty view. -/
theorem C1_empty_selection_skips_filter (d : Dataset) (sf : String)
    (rs : List String) (hrs : rs ≠ []) (hcov : ∀ r ∈ d, r.region ∈ rs)
    (ps : List String) (hps : ps ≠ []) (hpcov : ∀ r ∈ d, r.product ∈ ps) :
    dataProcessing d [] sf = dataProcessing d rs sf ∧
    dataProcessingNoAuth d [] [] sf = dataProcessingNoAuth d ps rs sf := by
  have hrf : d.filter (fun r => decide (r.region ∈ rs)) = d :=
    List.filter_eq_self.2 (fun r hr => by simpa using hcov r hr)
  have hpf : d.filter (fun r => decide (r.product ∈ ps)) = d :=
    List.filter_eq_self.2 (fun r hr => by simpa using hpcov r hr)
  constructor
  · unfold dataProcessing
    simp [hrs, hrf]
  · unfold dataProcessingNoAuth
    simp [hrs, hps, hrf, hpf]

theorem C1_witness :
    (["North"] ≠ ([] : List String)) ∧ (["Laptop"] ≠ ([] : List String)) ∧
    (∀ r ∈ [exRowNorth], r.region ∈ ["North"]) ∧
    dataProcessing [exRowNorth] [] "All" =
      dataProcessing [exRowNorth] ["North"] "All" :=
  ⟨by decide, by decide, by decide,
    (C1_empty_selection_skips_filter [exRowNorth] "All" ["North"] (by decide)
      (by decide) ["Laptop"] (by decide) (by decide)).1⟩

/-- C2 counterexample: with an empty region selection the filtered view
still contains the canonical row, whose Region is not a member of the
(empty) selected-region set — so "its Region is in the selected regions"
does not hold of every view row. -/
theorem C2_counterexample :
    ¬ (∀ vr ∈ dataProcessing [exRowNorth] [] "All",
        vr.row.region ∈ ([] : List String)) := by
  decide

/-- C2 (amended): a view row is in the filtered view exactly when its
underlying row is a canonical row satisfying the active predicate, where
each membership predicate is only active when its selection is non-empty
(an empty selection deactivates that filter instead of excluding all rows):
region ∈ selected regions (when non-empty), product ∈ selected products
(no-auth variant, when non-empty), status filter "All" or equal to the
row's Status; and the view row's Revenue is UnitsSold × UnitPrice. -/
theorem C2_filtered_view_membership (d : Dataset) (rs ps : List String)
    (sf : String) (vr : ViewRow) :
    (vr ∈ dataProcessing d rs sf ↔
      vr.row ∈ d ∧ (rs ≠ [] → vr.row.region ∈ rs) ∧
        (sf ≠ "All" → vr.row.status = sf) ∧
        vr.revenue = (vr.row.unitsSold : ℚ) * vr.row.unitPrice) ∧
    (vr ∈ dataProcessingNoAuth d ps rs sf ↔
      vr.row ∈ d ∧ (ps ≠ [] → vr.row.product ∈ ps) ∧
        (rs ≠ [] → vr.row.region ∈ rs) ∧
        (sf ≠ "All" → vr.row.status = sf) ∧
        vr.revenue = (vr.row.unitsSold : ℚ) * vr.row.unitPrice) :=
  ⟨mem_dataProcessing, mem_dataProcessingNoAuth⟩

/-- C3: reconciling an identical snapshot reports no change and keeps the
canonical dataset; reconciling a snapshot that differs anywhere (any cell,
row insertion or deletion makes the lists unequal) reports a change and
hands back exactly the edited snapshot, and a pass of `main` then stores
that snapshot as the new canonical dataset and triggers a rerun. -/
theorem C3_reconcile (d dEdited : Dataset) (stored : Option Dataset)
    (seed : Dataset) (i : Inputs) :
    reconcile d d = (false, d) ∧
    (dEdited ≠ d → reconcile d dEdited = (true, dEdited)) ∧
    (i.showRawData = true → i.editedDf ≠ stored.getD seed →
      (mainPass stored seed i).finalData = i.editedDf ∧
      (mainPass stored seed i).rerun = true) := by
  refine ⟨by simp [reconcile], fun hne => by simp [reconcile, hne], ?_⟩
  intro hraw hne
  unfold mainPass
  simp [hraw, reconcile, hne]

theorem C3_witness :
    (([] : Dataset) ≠ [exRowNorth]) ∧
    reconcile [exRowNorth] [exRowNorth] = (false, [exRowNorth]) ∧
    reconcile [exRowNorth] [] = (true, []) ∧
    (mainPass (some [exRowNorth]) [exRowNorth]
      { selectedRegions := ["North"], statusFilter := "All",
        showRawData := true, editedDf := [], editedDfNew := [] }).finalData
      = [] := by
  have h := C3_reconcile [exRowNorth] [] (some [exRowNorth]) [exRowNorth]
    { selectedRegions := ["North"], statusFilter := "All",
      showRawData := true, editedDf := [], editedDfNew := [] }
  exact ⟨by decide, h.1, h.2.1 (by decide), (h.2.2 rfl (by decide)).1⟩

/-- C4: the completion-rate KPI equals 100 × (Completed row count) /
(total row count) on every non-empty filtered view, and is 0 on the empty
view; the division is guarded by the emptiness test, so the divisor is the
positive row count whenever the division happens. -/
theorem C4_completion_rate (v : FilteredView) :
    (v ≠ [] → completionRate v =
      100 * ((v.filter (fun x => decide (x.row.status = "Completed"))).length : ℚ)
        / (v.length : ℚ)) ∧
    completionRate ([] : FilteredView) = 0 := by
  refine ⟨?_, by simp [completionRate]⟩
  intro hne
  have hlen : 0 < v.length := List.length_pos.2 hne
  unfold completionRate
  rw [if_pos hlen]
  ring

theorem C4_witness :
    (exView1 ≠ []) ∧
    completionRate exView1 =
      100 * ((exView1.filter
        (fun x => decide (x.row.status = "Completed"))).length : ℚ)
        / (exView1.length : ℚ) :=
  ⟨by decide, (C4_completion_rate exView1).1 (by decide)⟩

/-- C5: every row of a filtered view (both variants) carries Revenue equal
to its UnitsSold × UnitPrice, recomputed by the pass from the underlying
canonical row, which is itself a member of the canonical dataset; the
canonical dataset consists of `Row` values, which have no Revenue field,
so Revenue is never persisted in the canonical table. -/
theorem C5_revenue_recomputed (d : Dataset) (rs ps : List String)
    (sf : String) (vr vr2 : ViewRow)
    (h : vr ∈ dataProcessing d rs sf)
    (h2 : vr2 ∈ dataProcessingNoAuth d ps rs sf) :
    vr.revenue = (vr.row.unitsSold : ℚ) * vr.row.unitPrice ∧ vr.row ∈ d ∧
    vr2.revenue = (vr2.row.unitsSold : ℚ) * vr2.row.unitPrice ∧ vr2.row ∈ d := by
  have ha := mem_dataProcessing.1 h
  have hb := mem_dataProcessingNoAuth.1 h2
  exact ⟨ha.2.2.2, ha.1, hb.2.2.2.2, hb.1⟩

theorem C5_witness :
    ({ row := exRowNorth, revenue := 20 : ViewRow } ∈
      dataProcessing [exRowNorth] ["North"] "All") ∧
    ({ row := exRowNorth, revenue := 20 : ViewRow } ∈
      dataProcessingNoAuth [exRowNorth] ["Laptop"] ["North"] "All") ∧
    (20 : ℚ) = ((exRowNorth.unitsSold : ℚ) * exRowNorth.unitPrice) := by
  have hm : ({ row := exRowNorth, revenue := 20 : ViewRow } ∈
      dataProcessing [exRowNorth] ["North"] "All") := by
    norm_num [dataProcessing, addRevenue, exRowNorth]
  have hm2 : ({ row := exRowNorth, revenue := 20 : ViewRow } ∈
      dataProcessingNoAuth [exRowNorth] ["Laptop"] ["North"] "All") := by
    norm_num [dataProcessingNoAuth, addRevenue, exRowNorth]
  exact ⟨hm, hm2,
    (C5_revenue_recomputed [exRowNorth] ["North"] ["Laptop"] "All" _ _ hm hm2).1⟩

/-- C6 counterexample: in the view `exViewTie` the products appear in row
order B, A, C with total revenues 300, 300, 100.  The claimed stable
first-seen tie-break would have to list B before A, but the groupby step
orders the group index alphabetically, so the produced top-2 list is
[A, B] — the tie is broken by product name, not by first encounter. -/
theorem C6_counterexample :
    exViewTie.map (fun x => x.row.product) = ["B", "A", "C"] ∧
    topProductsByRevenue exViewTie 2 = [("A", 300), ("B", 300)] ∧
    topProductsByRevenue exViewTie 2 ≠ [("B", 300), ("A", 300)] := by
  refine ⟨by decide, ?_, ?_⟩
  all_goals
    simp [topProductsByRevenue, groupbyProductRevenueSum, sortKeysAsc,
      insertKeyAsc, productKeys, productRevenueSum, sortByRevenueDesc,
      insertByRevenueDesc, exViewTie, exRowA, exRowB, exRowC,
      List.filter_cons, List.filter_nil]

/-- C6 (amended): `topProductsByRevenue view n` returns at most n
(product, total revenue) pairs, in descending order of total revenue with
ties broken by ascending product name (the order the groupby index
imposes), never by first encounter in the view; every returned pair is a
product of the view with its total revenue, and fewer than n products have
a strictly larger total, so a product with strictly smaller total revenue
than n others is never included. -/
theorem C6_top_products (v : FilteredView) (n : Nat) :
    (topProductsByRevenue v n).length ≤ n ∧
    (topProductsByRevenue v n).Pairwise revAbove ∧
    ∀ pr ∈ topProductsByRevenue v n,
      pr.1 ∈ v.map (fun x => x.row.product) ∧
      pr.2 = productRevenueSum v pr.1 ∧
      ((groupbyProductRevenueSum v).filter
        (fun q => decide (pr.2 < q.2))).length < n := by
  have hpair := sortByRevenueDesc_pairwise (groupby_pairwise_fst_lt v)
  refine ⟨List.length_take_le _ _, ?_, ?_⟩
  · exact List.Pairwise.sublist (List.take_sublist _ _) hpair
  · intro pr hpr
    have hsorted : pr ∈ sortByRevenueDesc (groupbyProductRevenueSum v) :=
      List.mem_of_mem_take hpr
    have hg : pr ∈ groupbyProductRevenueSum v :=
      (sortByRevenueDesc_perm _).mem_iff.1 hsorted
    rcases List.mem_map.1 hg with ⟨p, hp, he⟩
    have hkeys : p ∈ productKeys v := (sortKeysAsc_perm _).mem_iff.1 hp
    have hmem : p ∈ v.map (fun x => x.row.product) := List.mem_dedup.1 hkeys
    refine ⟨?_, ?_, ?_⟩
    · rw [← he]
      exact hmem
    · rw [← he]
    · have hlt := filter_gt_length_lt_of_mem_take hpair hpr
      have hperm := (sortByRevenueDesc_perm
        (groupbyProductRevenueSum v)).filter (fun q => decide (pr.2 < q.2))
      rw [← hperm.length_eq]
      exact hlt

/-- C7: at the failing input (a filter selection whose filtered view is
empty) the avgRating KPI is `none`, the model of the NaN that pandas
`mean()` yields on an empty column; app.py formats this value into the
displayed metric unguarded (in contrast to the completion rate, which has
an explicit emptiness fallback), so a NaN — not a "no data" sentinel — is
propagated to the display. -/
theorem C7_avgRating_nan_on_empty :
    dataProcessing [exRowNorth] ["North"] "Pending" = [] ∧
    avgRating (dataProcessing [exRowNorth] ["North"] "Pending") = none ∧
    completionRate (dataProcessing [exRowNorth] ["North"] "Pending") = 0 := by
  decide

/-- C8: a pass that performs only filtering (both editor snapshots equal
the canonical dataset, i.e. no edit was made) leaves the canonical dataset
unchanged and does not rerun; the rendered view is the Filter Engine
output, whose underlying rows form a sublist of the canonical dataset —
the Revenue column lives only on the copied view, never on the canonical
table. -/
theorem C8_filter_pass_preserves_canonical (stored : Option Dataset)
    (seed : Dataset) (i : Inputs)
    (h1 : i.editedDf = stored.getD seed) (h2 : i.editedDfNew = stored.getD seed) :
    (mainPass stored seed i).finalData = stored.getD seed ∧
    (mainPass stored seed i).rerun = false ∧
    (mainPass stored seed i).view =
      dataProcessing (stored.getD seed) i.selectedRegions i.statusFilter ∧
    ∀ (d : Dataset) (rs : List String) (sf : String),
      ((dataProcessing d rs sf).map (fun x => x.row)).Sublist d := by
  have hmain : mainPass stored seed i =
      { finalData := stored.getD seed,
        view := dataProcessing (stored.getD seed) i.selectedRegions
          i.statusFilter,
        rerun := false } := by
    unfold mainPass
    by_cases hraw : i.showRawData = true <;> simp [hraw, reconcile, h1, h2]
  rw [hmain]
  exact ⟨rfl, rfl, rfl, dataProcessing_rows_sublist⟩

theorem C8_witness :
    (({ selectedRegions := ["North"], statusFilter := "All",
        showRawData := true, editedDf := [exRowNorth],
        editedDfNew := [exRowNorth] : Inputs }).editedDf
      = (none : Option Dataset).getD [exRowNorth]) ∧
    (mainPass none [exRowNorth]
      { selectedRegions := ["North"], statusFilter := "All",
        showRawData := true, editedDf := [exRowNorth],
        editedDfNew := [exRowNorth] }).finalData = [exRowNorth] :=
  ⟨rfl, (C8_filter_pass_preserves_canonical none [exRowNorth]
    { selectedRegions := ["North"], statusFilter := "All",
      showRawData := true, editedDf := [exRowNorth],
      editedDfNew := [exRowNorth] } rfl rfl).1⟩

/-- C9: the reactive core (the whole of `main`) executes exactly on the
granted verdict; on denied or pending the dispatch produces no pass result
at all — independent of the session dataset, the seed and every widget
input, i.e. without any dataset access — and shows the fixed message of
that verdict. -/
theorem C9_session_gate (auth : AuthStatus) (stored stored2 : Option Dataset)
    (seed seed2 : Dataset) (i i2 : Inputs) :
    topLevel .granted stored seed i = (some (mainPass stored seed i), none) ∧
    (auth ≠ .granted →
      (topLevel auth stored seed i).1 = none ∧
      topLevel auth stored seed i = topLevel auth stored2 seed2 i2) ∧
    (topLevel .denied stored seed i).2 = some "Username/password is incorrect" ∧
    (topLevel .pending stored seed i).2 =
      some "Please enter your username and password" := by
  refine ⟨rfl, ?_, rfl, rfl⟩
  intro h
  cases auth with
  | granted => exact absurd rfl h
  | denied => exact ⟨rfl, rfl⟩
  | pending => exact ⟨rfl, rfl⟩

theorem C9_witness :
    (AuthStatus.denied ≠ AuthStatus.granted) ∧
    (topLevel .denied none [exRowNorth]
      { selectedRegions := [], statusFilter := "All", showRawData := false,
        editedDf := [], editedDfNew := [] }).1 = none :=
  ⟨by decide,
    ((C9_session_gate .denied none (some []) [exRowNorth] []
      { selectedRegions := [], statusFilter := "All", showRawData := false,
        editedDf := [], editedDfNew := [] }
      { selectedRegions := [], statusFilter := "All", showRawData := false,
        editedDf := [], editedDfNew := [] }).2.1 (by decide)).1⟩

/-- C10: the status radio offers exactly All, Completed and Pending —
never Cancelled — so any reachable status filter value is one of those
three, and whenever an exact-match status filter is active the filtered
view cannot contain a Cancelled row; a view of only Cancelled rows can
therefore only arise under the "All" setting. -/
theorem C10_status_filter_options (sf : String)
    (hsf : sf ∈ statusRadioOptions) :
    ("Cancelled" ∉ statusRadioOptions) ∧
    (sf = "All" ∨ sf = "Completed" ∨ sf = "Pending") ∧
    (sf ≠ "All" → ∀ (d : Dataset) (rs : List String) (vr : ViewRow),
      vr ∈ dataProcessing d rs sf → vr.row.status ≠ "Cancelled") := by
  have hopts : sf = "All" ∨ sf = "Completed" ∨ sf = "Pending" := by
    simpa [statusRadioOptions] using hsf
  refine ⟨by decide, hopts, ?_⟩
  intro hAll d rs vr hvr
  have hstat := (mem_dataProcessing.1 hvr).2.2.1 hAll
  rcases hopts with h | h | h
  · exact absurd h hAll
  · rw [hstat, h]
    decide
  · rw [hstat, h]
    decide

theorem C10_witness :
    ("Completed" ∈ statusRadioOptions) ∧
    ("Cancelled" ∉ statusRadioOptions) :=
  ⟨by decide, (C10_status_filter_options "Completed" (by decide)).1⟩
